import Mathlib

/-!
Shallow embedding of the `Result[T]` container from the go-result repository
(file `result.go`, package `main`), together with theorems settling the
specification's claims about it.

Modelling conventions:
- A Go `error` interface value is `Option GoError`: `none` is the nil
  interface value, `some e` a concrete non-nil error whose `Error()` method
  returns `e.msg`.
- Go's `panic` takes an `interface{}` argument; the payload of a panic is
  modelled by `PanicValue`, with one constructor per kind of value the
  embedding can observe (a plain string, or an error value).  A method that
  can panic returns `Except PanicValue α`: `.ok` is a normal return,
  `.error p` a panic with payload `p`.
- The Go zero value of a type parameter `T` (`var zero T`) is modelled by
  `(default : T)` from an `Inhabited T` instance.
-/

/-- A concrete (non-nil) Go error value; `msg` is what its `Error()` method
returns. -/
structure GoError where
  msg : String
deriving DecidableEq

/-- A Go `error` interface value: nil (`none`) or a concrete error. -/
abbrev GoErrorVal := Option GoError

/-- The payload of a Go `panic`: Go's `panic` takes an `interface{}`, so the
payload may be a plain string or an error value (the two kinds relevant to
this program). -/
inductive PanicValue where
  | ofString (s : String)
  | ofError (e : GoError)
deriving DecidableEq

/-- The struct `Result[T any] { value T; err error }`. -/
structure Result (T : Type) where
  value : T
  err : GoErrorVal

/-- `Ok[T any](v T) Result[T]`: `Result[T]{value: v, err: nil}`. -/
def Ok {T : Type} (v : T) : Result T :=
  { value := v, err := none }

/-- `Err[T any](e error) Result[T]`: `var zero T; Result[T]{value: zero, err: e}`. -/
def Err (T : Type) [Inhabited T] (e : GoErrorVal) : Result T :=
  { value := default, err := e }

/-- `func (r Result[T]) IsOk() bool { return r.err == nil }`. -/
def Result.IsOk {T : Type} (r : Result T) : Bool :=
  r.err.isNone

/-- `func (r Result[T]) IsErr() bool { return r.err != nil }`. -/
def Result.IsErr {T : Type} (r : Result T) : Bool :=
  r.err.isSome

/-- `func (r Result[T]) Error() error { return r.err }`. -/
def Result.Error {T : Type} (r : Result T) : GoErrorVal :=
  r.err

/-- `func (r Result[T]) Unwrap() T`: if `r.err != nil`, panics with the string
`"called Unwrap on Err: " + r.err.Error()`; otherwise returns `r.value`. -/
def Result.Unwrap {T : Type} (r : Result T) : Except PanicValue T :=
  match r.err with
  | some e => .error (.ofString ("called Unwrap on Err: " ++ e.msg))
  | none => .ok r.value

/-- `func (r Result[T]) Expect(msg string) T`: if `r.err != nil`, panics with
the string `msg + ": " + r.err.Error()`; otherwise returns `r.value`. -/
def Result.Expect {T : Type} (r : Result T) (msg : String) : Except PanicValue T :=
  match r.err with
  | some e => .error (.ofString (msg ++ ": " ++ e.msg))
  | none => .ok r.value

/-- `func (r Result[T]) UnwrapOr(def T) T`: if `r.err != nil` returns `def`,
otherwise returns `r.value`. -/
def Result.UnwrapOr {T : Type} (r : Result T) (d : T) : T :=
  match r.err with
  | some _ => d
  | none => r.value

/-- `func (r Result[T]) UnwrapOrErr(newErr error) (T, error)`: if
`r.err != nil`, `var zero T; return zero, newErr`; otherwise
`return r.value, nil`. -/
def Result.UnwrapOrErr {T : Type} [Inhabited T] (r : Result T) (newErr : GoErrorVal) :
    T × GoErrorVal :=
  match r.err with
  | some _ => (default, newErr)
  | none => (r.value, none)

/-- The Go zero value of the struct `Result[T]` (a variable declared without
either constructor): every field zero-initialized, so `value` is the zero
value of `T` and `err` is nil. -/
def defaultResult (T : Type) [Inhabited T] : Result T :=
  { value := default, err := none }

/-- One call to a method of `Result[T]`, with its argument when it takes one. -/
inductive MethodCall (T : Type) where
  | isOk
  | isErr
  | errorV
  | unwrap
  | expect (msg : String)
  | unwrapOr (d : T)
  | unwrapOrErr (e : GoErrorVal)

/-- The value a method call produces (one constructor per return type). -/
inductive MethodOut (T : Type) where
  | ofBool (b : Bool)
  | ofErrVal (e : GoErrorVal)
  | ofExcept (x : Except PanicValue T)
  | ofVal (v : T)
  | ofPair (p : T × GoErrorVal)

/-- State-passing translation of the methods: every method of `Result[T]`
takes its receiver `r` by value and its body contains no assignment to a
field of `r`, so the receiver state each method body leaves behind is `r`
itself, returned here as the second component. -/
def Result.callSt {T : Type} [Inhabited T] (r : Result T) :
    MethodCall T → MethodOut T × Result T
  | .isOk => (.ofBool r.IsOk, r)
  | .isErr => (.ofBool r.IsErr, r)
  | .errorV => (.ofErrVal r.Error, r)
  | .unwrap => (.ofExcept r.Unwrap, r)
  | .expect msg => (.ofExcept (r.Expect msg), r)
  | .unwrapOr d => (.ofVal (r.UnwrapOr d), r)
  | .unwrapOrErr e => (.ofPair (r.UnwrapOrErr e), r)

/-- Receiver state after running a sequence of method calls, in order. -/
def Result.runCalls {T : Type} [Inhabited T] (r : Result T) (ops : List (MethodCall T)) :
    Result T :=
  ops.foldl (fun s c => (s.callSt c).2) r

theorem callSt_snd {T : Type} [Inhabited T] (r : Result T) (c : MethodCall T) :
    (r.callSt c).2 = r := by
  cases c <;> rfl

theorem runCalls_eq_self {T : Type} [Inhabited T] (r : Result T)
    (ops : List (MethodCall T)) : Result.runCalls r ops = r := by
  induction ops generalizing r with
  | nil => rfl
  | cons c cs ih =>
    show Result.runCalls ((r.callSt c).2) cs = r
    rw [callSt_snd]
    exact ih r

/-- C1: for every value `v`, `Ok(v)` satisfies: `IsOk()` is true, `IsErr()` is
false, `Error()` is nil, `Unwrap()` returns `v`, `Expect(m)` returns `v` for
any `m`, `UnwrapOr(d)` returns `v` for any `d`, and `UnwrapOrErr(e)` returns
`(v, nil)` for any `e`. -/
theorem ok_properties {T : Type} [Inhabited T] (v : T) (m : String) (d : T)
    (e : GoErrorVal) :
    (Ok v).IsOk = true ∧ (Ok v).IsErr = false ∧ (Ok v).Error = none ∧
    (Ok v).Unwrap = Except.ok v ∧ (Ok v).Expect m = Except.ok v ∧
    (Ok v).UnwrapOr d = v ∧ (Ok v).UnwrapOrErr e = (v, none) :=
  ⟨rfl, rfl, rfl, rfl, rfl, rfl, rfl⟩

/-- C2: for every (non-nil) error `e`, `Err(e)` satisfies: `IsErr()` is true,
`IsOk()` is false, `Error()` returns `e`, `UnwrapOr(d)` returns `d` for any
`d`, and `UnwrapOrErr(e2)` returns `(zero value of T, e2)` for any `e2`, the
original error being discarded. -/
theorem err_properties (T : Type) [Inhabited T] (e : GoError) (d : T)
    (e2 : GoErrorVal) :
    (Err T (some e)).IsErr = true ∧ (Err T (some e)).IsOk = false ∧
    (Err T (some e)).Error = some e ∧
    (Err T (some e)).UnwrapOr d = d ∧
    (Err T (some e)).UnwrapOrErr e2 = ((default : T), e2) :=
  ⟨rfl, rfl, rfl, rfl, rfl⟩

/-- C3: on every failure-state result, `Unwrap()` and `Expect(msg)` panic and
never return normally; `Unwrap()`'s panic message is the fixed marker
`"called Unwrap on Err: "` followed by the original error's text, and
`Expect(msg)`'s is the caller's message, the separator `": "`, and the
original error's text; hence both messages contain the error's text and
`Expect`'s also contains the caller's message. -/
theorem unwrap_expect_panic_on_failure {T : Type} (r : Result T) (e : GoError)
    (m : String) (h : r.err = some e) :
    r.Unwrap = Except.error (.ofString ("called Unwrap on Err: " ++ e.msg)) ∧
    r.Expect m = Except.error (.ofString (m ++ ": " ++ e.msg)) ∧
    (∀ v : T, r.Unwrap ≠ Except.ok v) ∧
    (∀ v : T, r.Expect m ≠ Except.ok v) ∧
    (∃ pre suf : List Char,
      ("called Unwrap on Err: " ++ e.msg).data = pre ++ e.msg.data ++ suf) ∧
    (∃ pre suf : List Char,
      (m ++ ": " ++ e.msg).data = pre ++ e.msg.data ++ suf) ∧
    (∃ pre suf : List Char,
      (m ++ ": " ++ e.msg).data = pre ++ m.data ++ suf) := by
  refine ⟨by simp [Result.Unwrap, h], by simp [Result.Expect, h],
    by simp [Result.Unwrap, h], by simp [Result.Expect, h],
    ⟨"called Unwrap on Err: ".data, [], by simp⟩,
    ⟨(m ++ ": ").data, [], by simp⟩,
    ⟨[], (": " ++ e.msg).data, by simp⟩⟩

theorem unwrap_expect_panic_on_failure_witness :
    (Err Nat (some ⟨"disk full"⟩)).Unwrap =
      Except.error (.ofString ("called Unwrap on Err: " ++ "disk full")) ∧
    (Err Nat (some ⟨"disk full"⟩)).Expect "cannot proceed" =
      Except.error (.ofString ("cannot proceed" ++ ": " ++ "disk full")) := by
  have h := unwrap_expect_panic_on_failure (Err Nat (some ⟨"disk full"⟩))
    ⟨"disk full"⟩ "cannot proceed" rfl
  exact ⟨h.1, h.2.1⟩

/-- C4: for every instance of `Result[T]`, however obtained, `IsOk()` and
`IsErr()` are exact logical negations of each other: never both true, never
both false. -/
theorem isOk_isErr_complement {T : Type} (r : Result T) :
    r.IsOk = !r.IsErr ∧ ¬(r.IsOk = true ∧ r.IsErr = true) ∧
    ¬(r.IsOk = false ∧ r.IsErr = false) := by
  cases r with
  | mk v err => cases err <;> simp [Result.IsOk, Result.IsErr]

/-- C5: `Err` performs no validation of its argument: `Err[T](nil)` yields an
instance on which `IsOk()` is true, `IsErr()` is false, `Error()` is nil, and
`Unwrap()` returns the zero value of `T` without panicking — the
contract-violating call is treated as a success. -/
theorem err_nil_treated_as_success (T : Type) [Inhabited T] :
    (Err T none).IsOk = true ∧ (Err T none).IsErr = false ∧
    (Err T none).Error = none ∧
    (Err T none).Unwrap = Except.ok (default : T) :=
  ⟨rfl, rfl, rfl, rfl⟩

/-- C6: `UnwrapOr(d)` returns the stored value on a success and the fallback
`d` unchanged on a failure; it always returns normally, and its output depends
only on whether an error is present, never on the error's content. -/
theorem unwrapOr_safe_and_error_blind {T : Type} (v d : T) (e e2 : GoError) :
    (Ok v).UnwrapOr d = v ∧
    (Result.mk v (some e)).UnwrapOr d = d ∧
    (Result.mk v (some e)).UnwrapOr d = (Result.mk v (some e2)).UnwrapOr d :=
  ⟨rfl, rfl, rfl⟩

/-- C7: no method mutates its receiver: each method call leaves the receiver's
`value` and `err` fields unchanged, the receiver state after any sequence of
calls equals the initial one, and repeating any call after any sequence of
calls returns the identical result. -/
theorem methods_do_not_mutate {T : Type} [Inhabited T] (r : Result T)
    (ops : List (MethodCall T)) (c : MethodCall T) :
    (r.callSt c).2 = r ∧
    Result.runCalls r ops = r ∧
    ((Result.runCalls r ops).callSt c).1 = (r.callSt c).1 := by
  refine ⟨callSt_snd r c, runCalls_eq_self r ops, ?_⟩
  rw [runCalls_eq_self]

/-- C8: a default-initialized (zero-value) `Result[T]` equals `Ok(zero value
of T)` and behaves as that success under every operation: `IsOk()` true,
`IsErr()` false, `Error()` nil, `Unwrap()` and `Expect(m)` return the zero
value without panicking, `UnwrapOr(d)` returns the zero value, and
`UnwrapOrErr(e)` returns `(zero value, nil)`. -/
theorem default_result_behaves_as_ok_zero (T : Type) [Inhabited T] (m : String)
    (d : T) (e : GoErrorVal) :
    defaultResult T = Ok (default : T) ∧
    (defaultResult T).IsOk = true ∧ (defaultResult T).IsErr = false ∧
    (defaultResult T).Error = none ∧
    (defaultResult T).Unwrap = Except.ok (default : T) ∧
    (defaultResult T).Expect m = Except.ok (default : T) ∧
    (defaultResult T).UnwrapOr d = (default : T) ∧
    (defaultResult T).UnwrapOrErr e = ((default : T), none) :=
  ⟨rfl, rfl, rfl, rfl, rfl, rfl, rfl, rfl⟩

/-- C9: `UnwrapOrErr` does not check its argument for nil: on every
failure-state result, `UnwrapOrErr(nil)` returns `(zero value of T, nil)` — an
output identical to that of a success result holding the zero value, silently
erasing the failure. -/
theorem unwrapOrErr_nil_erases_failure (T : Type) [Inhabited T] (v : T)
    (e : GoError) :
    (Result.mk v (some e)).UnwrapOrErr none = ((default : T), none) ∧
    (Result.mk v (some e)).UnwrapOrErr none =
      (Ok (default : T)).UnwrapOrErr none :=
  ⟨rfl, rfl⟩

/-- C10: the panic payload of `Unwrap()` and `Expect(msg)` on a failure is a
plain string built from the stored error's `Error()` text; the error value
itself is never part of the payload, so recovering the panic yields only the
error's text. -/
theorem panic_payload_plain_string {T : Type} (r : Result T) (e : GoError)
    (m : String) (h : r.err = some e) :
    (∃ s : String, r.Unwrap = Except.error (.ofString s) ∧
      s = "called Unwrap on Err: " ++ e.msg) ∧
    (∃ s : String, r.Expect m = Except.error (.ofString s) ∧
      s = m ++ ": " ++ e.msg) ∧
    (∀ e2 : GoError, r.Unwrap ≠ Except.error (.ofError e2)) ∧
    (∀ e2 : GoError, r.Expect m ≠ Except.error (.ofError e2)) := by
  refine ⟨⟨_, by simp [Result.Unwrap, h], rfl⟩,
    ⟨_, by simp [Result.Expect, h], rfl⟩,
    fun e2 => by simp [Result.Unwrap, h],
    fun e2 => by simp [Result.Expect, h]⟩

theorem panic_payload_plain_string_witness :
    (Err Bool (some ⟨"disk full"⟩)).Unwrap ≠
      Except.error (.ofError ⟨"disk full"⟩) ∧
    (Err Bool (some ⟨"disk full"⟩)).Expect "boom" ≠
      Except.error (.ofError ⟨"boom"⟩) := by
  have h := panic_payload_plain_string (Err Bool (some ⟨"disk full"⟩))
    ⟨"disk full"⟩ "boom" rfl
  exact ⟨h.2.2.1 ⟨"disk full"⟩, h.2.2.2 ⟨"boom"⟩⟩
